import Mathlib

/-!
# Verification of the CS2-Scanner trade-up profitability scripts

A shallow embedding of the arithmetic and control flow of the repository's
core scripts, with theorems settling the specification's claims about them.

Embedded source files, each in its own namespace:

* `ManualAnalyzer`   — `manual_analyzer.py` (`analyze_tradeup`, `batch_analyze`);
* `RateLimitHandler` — `rate_limit_handler.py` (`get_wait_time`,
  `should_switch_ip`, `handle_rate_limit`);
* `SmartScanner`     — `smart_scanner.py` (`get_price_with_retry`,
  `analyze_collection`, the report of `main`);
* `TradeupScanner`   — `tradeup_scanner.py` (`get_market_price`,
  `evaluate_collection`, `run_full_scan`).

Modelling conventions:

* Python floats carrying currency amounts become `ℚ` (the scripts only add,
  subtract, multiply, divide and compare prices, so exact rationals model the
  intended arithmetic; no claim concerns float rounding).
* The remote Steam endpoint is abstracted: a fetch attempt's observable
  outcome is a `SmartScanner.FetchOutcome` (throttled / transport error / bad
  payload / a successfully parsed price), supplied by an oracle.  The price
  returned for an item by the cache-backed fetcher is abstracted, where only
  the evaluator's logic is at stake, as a pure map `priceOf : String → Option ℚ`.
* The process-global price cache dict becomes an association list updated by
  consing, read through `List.lookup` (first match wins, as a dict overwrite).
* Wall-clock timestamps (`datetime.now()`, `time.time()`) become `ℕ` seconds
  passed in explicitly; `sleep` has no observable effect on any claim and is
  dropped.
* Python truthiness tests on a float price (`if price:`) become `price ≠ 0`,
  and on an optional string name (`if not name:`) become `Option.isNone`.
-/

namespace CS2Scanner

/-! ## manual_analyzer.py -/

namespace ManualAnalyzer

/-- `STEAM_FEE_PERCENT = 0.13` (manual_analyzer.py line 10). -/
def STEAM_FEE_PERCENT : ℚ := 13 / 100

/-- The dictionary returned by `analyze_tradeup` (manual_analyzer.py lines 31-41). -/
structure TradeupResult where
  collection : String
  covert_price : ℚ
  gold_price : ℚ
  price_ratio : ℚ
  cost_5x_covert : ℚ
  gold_after_fee : ℚ
  net_profit : ℚ
  profit_margin_pct : ℚ
  is_profitable : Bool

/-- `analyze_tradeup` (manual_analyzer.py lines 13-41). -/
def analyze_tradeup (covert_price gold_price : ℚ) (collection_name : String) :
    TradeupResult :=
  let cost_5x_covert := covert_price * 5
  let gold_after_fee := gold_price * (1 - STEAM_FEE_PERCENT)
  let net_profit := gold_after_fee - cost_5x_covert
  let profit_margin := if cost_5x_covert > 0 then net_profit / cost_5x_covert * 100 else 0
  let price_ratio := if covert_price > 0 then gold_price / covert_price else 0
  { collection := collection_name
    covert_price := covert_price
    gold_price := gold_price
    price_ratio := price_ratio
    cost_5x_covert := cost_5x_covert
    gold_after_fee := gold_after_fee
    net_profit := net_profit
    profit_margin_pct := profit_margin
    is_profitable := decide (net_profit > 0) }

/-- An entry of the `opportunities` list fed to `batch_analyze`
(manual_analyzer.py lines 44-67): a dict with keys
`collection`, `covert_price`, `gold_price`. -/
structure Opportunity where
  collection : String
  covert_price : ℚ
  gold_price : ℚ

/-- The comparison under `df.sort_values('net_profit', ascending=False)`:
`a` may precede `b` iff `b.net_profit ≤ a.net_profit`. -/
def net_profit_desc (a b : TradeupResult) : Prop :=
  b.net_profit ≤ a.net_profit

instance : DecidableRel net_profit_desc :=
  fun a b => inferInstanceAs (Decidable (b.net_profit ≤ a.net_profit))

instance : IsTotal TradeupResult net_profit_desc :=
  ⟨fun a b => le_total b.net_profit a.net_profit⟩

instance : IsTrans TradeupResult net_profit_desc :=
  ⟨fun _ _ _ h1 h2 => le_trans h2 h1⟩

/-- `batch_analyze` (manual_analyzer.py lines 44-67): analyze every
opportunity, then sort the rows by `net_profit` descending. -/
def batch_analyze (opportunities : List Opportunity) : List TradeupResult :=
  List.insertionSort net_profit_desc
    (opportunities.map fun opp =>
      analyze_tradeup opp.covert_price opp.gold_price opp.collection)

end ManualAnalyzer

/-! ## rate_limit_handler.py -/

namespace RateLimitHandler

/-- `self.base_wait_time = 60` (rate_limit_handler.py line 19; set in
`__init__` and never reassigned). -/
def base_wait_time : ℕ := 60

/-- `self.max_wait_time = 600` (line 20; never reassigned). -/
def max_wait_time : ℕ := 600

/-- `self.min_ip_switch_interval = 300` (line 23; never reassigned). -/
def min_ip_switch_interval : ℕ := 300

/-- `RateLimitHandler.get_wait_time` (lines 61-71), as a function of the only
mutable state it reads, `self.rate_limit_hits`.  `int()` of the `min` of two
ints is the identity, so the result is the `min` itself. -/
def get_wait_time (rate_limit_hits : ℕ) : ℕ :=
  if rate_limit_hits = 0 then base_wait_time
  else min (base_wait_time * 2 ^ (rate_limit_hits - 1)) max_wait_time

/-- The mutable counters of a `RateLimitHandler` instance (lines 17-23).
Timestamps are seconds as `ℕ`; `none` models Python `None`. -/
structure RLState where
  rate_limit_hits : ℕ
  last_rate_limit_time : Option ℕ
  ip_switch_count : ℕ
  last_ip_switch_time : Option ℕ

/-- The state `__init__` leaves behind (lines 16-23). -/
def initState : RLState :=
  { rate_limit_hits := 0, last_rate_limit_time := none
    ip_switch_count := 0, last_ip_switch_time := none }

/-- `RateLimitHandler.should_switch_ip` (lines 73-86).  `now` stands for
`datetime.now()`; a `datetime` object is always truthy, so
`self.last_ip_switch_time` is truthy iff it is not `None`. -/
def should_switch_ip (st : RLState) (now : ℕ) : Bool :=
  if st.rate_limit_hits > 0 then true
  else
    match st.last_ip_switch_time with
    | some t =>
        if st.ip_switch_count > 0 then decide (now - t > min_ip_switch_interval)
        else false
    | none => false

/-- What one call to `handle_rate_limit` leaves behind: the updated counters,
whether `switch_vpn_server` ran and succeeded, and the number of seconds the
countdown loop then waits. -/
structure HandleResult where
  state : RLState
  switched : Bool
  wait_time : ℕ

/-- `RateLimitHandler.handle_rate_limit` (lines 153-196).  `vpn_available`
models `vpn_type` being non-`None`; `switch_ok` models whether the external
`switch_vpn_server` subprocess succeeds (on success the source sets
`self.ip_switch_count += 1` and `self.last_ip_switch_time = datetime.now()`
inside `switch_vpn_server`, lines 113-114, and the wait is shortened to
`max(30, wait_time // 2)`, line 177).  The function itself always returns
`True`; the interesting outputs are the state and the wait. -/
def handle_rate_limit (st : RLState) (now : ℕ) (vpn_available switch_ok : Bool) :
    HandleResult :=
  let st1 : RLState :=
    { st with rate_limit_hits := st.rate_limit_hits + 1
              last_rate_limit_time := some now }
  let wait_time := get_wait_time st1.rate_limit_hits
  if vpn_available && should_switch_ip st1 now then
    if switch_ok then
      let st2 : RLState :=
        { st1 with ip_switch_count := st1.ip_switch_count + 1
                   last_ip_switch_time := some now }
      { state := st2, switched := true, wait_time := max 30 (wait_time / 2) }
    else { state := st1, switched := false, wait_time := wait_time }
  else { state := st1, switched := false, wait_time := wait_time }

end RateLimitHandler

/-! ## smart_scanner.py -/

namespace SmartScanner

/-- `STEAM_FEE_PERCENT = 0.13` (smart_scanner.py line 20). -/
def STEAM_FEE_PERCENT : ℚ := 13 / 100

/-- `MAX_RETRIES = 3` (smart_scanner.py line 24). -/
def MAX_RETRIES : ℕ := 3

/-- The observable outcome of one remote request inside
`get_price_with_retry` (smart_scanner.py lines 78-122):

* `throttled`      — `response.status_code == 429` (line 81);
* `transportError` — `requests.get` or `raise_for_status` raises a
  `requests.exceptions.RequestException` (caught at line 112);
* `badPayload`     — the request returned but `success` is false, or
  `lowest_price` is missing/empty, or parsing the price string raises a
  `ValueError`/`KeyError` (caught at line 120) — each an immediate `None`;
* `priced p`       — `float(...)` succeeded with value `p`.

These four branches are exhaustive: every exception the body can raise is
caught by the `except` clauses at lines 112 and 120 (a JSON decode failure of
`response.json()` is a `RequestException` or `ValueError` subclass), so the
Python function never propagates an exception, matching this total model. -/
inductive FetchOutcome where
  | throttled
  | transportError
  | badPayload
  | priced (price : ℚ)

/-- The mutable state of a `RateLimitedScanner` the claims observe
(smart_scanner.py lines 33-36): the price cache and the remote-request
counter.  `request_count` here counts remote requests issued (the
`requests.get` calls); in the source the `self.request_count += 1` at line 79
is skipped when `requests.get` itself raises, but the remote call was issued
all the same, which is the quantity the specification bounds. -/
structure ScannerState where
  price_cache : List (String × ℚ)
  request_count : ℕ

/-- The retry loop of `get_price_with_retry` (smart_scanner.py lines 61-124),
counting down the remaining attempts from `MAX_RETRIES`; `oracle i` is the
outcome of the remote request of attempt `i` (0-based).  On `throttled` the
loop sleeps and continues; a `transportError` retries unless this was the
last attempt (`attempt < MAX_RETRIES - 1`, line 114); `badPayload` returns
`None` at once; a parsed price is stored into the cache (line 103) and
returned.  Falling off the loop returns `None` (line 124). -/
def retry_loop (oracle : ℕ → FetchOutcome) (item_name : String) :
    ℕ → ScannerState → Option ℚ × ScannerState
  | 0, st => (none, st)
  | fuel + 1, st =>
    let st1 : ScannerState := { st with request_count := st.request_count + 1 }
    match oracle (MAX_RETRIES - (fuel + 1)) with
    | .throttled => retry_loop oracle item_name fuel st1
    | .transportError =>
        if fuel = 0 then (none, st1) else retry_loop oracle item_name fuel st1
    | .badPayload => (none, st1)
    | .priced price =>
        (some price, { st1 with price_cache := (item_name, price) :: st1.price_cache })

/-- `RateLimitedScanner.get_price_with_retry` (smart_scanner.py lines 51-124):
a cache hit (lines 55-57) returns the cached price without touching the
network; otherwise the retry loop runs with `MAX_RETRIES` attempts. -/
def get_price_with_retry (st : ScannerState) (item_name : String)
    (oracle : ℕ → FetchOutcome) : Option ℚ × ScannerState :=
  match st.price_cache.lookup item_name with
  | some price => (some price, st)
  | none => retry_loop oracle item_name MAX_RETRIES st

/-- The `'knives'` entry of `priority_finishes` (smart_scanner.py line 155). -/
def priority_finishes_knives : List String :=
  ["Safari Mesh", "Boreal Forest", "Forest DDPAT", "Scorched", "Urban Masked", "Stained"]

/-- The `'chroma'` entry of `priority_finishes` (line 156). -/
def priority_finishes_chroma : List String :=
  ["Rust Coat", "Ultraviolet", "Damascus Steel"]

/-- The `'gamma'` entry of `priority_finishes` (line 157). -/
def priority_finishes_gamma : List String :=
  ["Bright Water", "Black Laminate"]

/-- The `sample_finishes` selection of `analyze_collection`
(smart_scanner.py lines 160-168). -/
def sample_finishes_of (finish_set : List String) : List String :=
  if "Safari Mesh" ∈ finish_set then
    (priority_finishes_knives.filter finish_set.contains).take 3
  else if "Rust Coat" ∈ finish_set then
    (priority_finishes_chroma.filter finish_set.contains).take 3
  else if "Bright Water" ∈ finish_set then
    (priority_finishes_gamma.filter finish_set.contains).take 3
  else finish_set.take 3

/-- `wear_conditions` (smart_scanner.py line 174). -/
def wear_conditions : List String := ["(Field-Tested)", "(Battle-Scarred)"]

/-- The running-minimum pattern shared by the price loops of
`analyze_collection` (smart_scanner.py lines 140-144 and 189-195) and the
gold loop of `evaluate_collection` (tradeup_scanner.py lines 565-569):

    price = fetch(name)
    if price and price < cheapest_price:
        cheapest_price = price
        cheapest_name = name

`best = none` models `cheapest_name is None ∧ cheapest_price = inf` (any
nonzero price beats `inf`); `price ≠ 0` is the float truthiness test. -/
def track_min_priced (priceOf : String → Option ℚ)
    (best : Option (String × ℚ)) (names : List String) : Option (String × ℚ) :=
  names.foldl
    (fun acc name =>
      match priceOf name with
      | some price =>
          match acc with
          | none => if price ≠ 0 then some (name, price) else acc
          | some (_, best_price) =>
              if price ≠ 0 ∧ price < best_price then some (name, price) else acc
      | none => acc)
    best

/-- The dictionary returned by `analyze_collection`
(smart_scanner.py lines 216-228). -/
structure SmartResult where
  collection : String
  covert_skin : String
  covert_price : ℚ
  gold_item : String
  gold_price : ℚ
  price_ratio : ℚ
  cost_5x : ℚ
  gold_after_fee : ℚ
  net_profit : ℚ
  profit_margin_pct : ℚ
  is_profitable : Bool

/-- The profitability block of `analyze_collection`
(smart_scanner.py lines 203-228).  Note `price_ratio` at line 208 is
`cheapest_gold_price / cheapest_covert_price` with NO zero guard (unlike the
other two scripts); the model uses Lean's total division, and the theorems
show the divisor is never zero on any path that reaches this computation. -/
def mkSmartResult (collection_name covert_name gold_name : String)
    (covert_price gold_price : ℚ) : SmartResult :=
  let cost_5x := covert_price * 5
  let gold_after_fee := gold_price * (1 - STEAM_FEE_PERCENT)
  let net_profit := gold_after_fee - cost_5x
  let profit_margin := if cost_5x > 0 then net_profit / cost_5x * 100 else 0
  let price_ratio := gold_price / covert_price
  { collection := collection_name, covert_skin := covert_name
    covert_price := covert_price, gold_item := gold_name, gold_price := gold_price
    price_ratio := price_ratio, cost_5x := cost_5x, gold_after_fee := gold_after_fee
    net_profit := net_profit, profit_margin_pct := profit_margin
    is_profitable := decide (net_profit > 0) }

/-- `RateLimitedScanner.analyze_collection` (smart_scanner.py lines 126-228),
with the cache-backed fetch abstracted as `priceOf`.  The covert loop keeps
the cheapest truthy price (lines 140-144) and bails out if none was found
(lines 146-148); the gold side samples the first model (`gold_models[0]`,
line 172 — an empty model list would raise an `IndexError` that `main`
catches and turns into a skipped collection, modelled as `none`), tries the
vanilla knife first (lines 180-185), then the sampled finishes crossed with
the two wear conditions (lines 189-195), and bails out if nothing truthy was
found (lines 197-199). -/
def analyze_collection (priceOf : String → Option ℚ) (collection_name : String)
    (covert_skins gold_models finish_set : List String) : Option SmartResult :=
  match track_min_priced priceOf none covert_skins with
  | none => none
  | some (cheapest_covert_name, cheapest_covert_price) =>
    match gold_models with
    | [] => none
    | sample_model :: _ =>
      let sample_finishes := sample_finishes_of finish_set
      let vanilla_name := "★ " ++ sample_model
      let vanillaBest : Option (String × ℚ) :=
        match priceOf vanilla_name with
        | some price => if price ≠ 0 then some (vanilla_name, price) else none
        | none => none
      let gold_names := sample_finishes.flatMap fun finish =>
        wear_conditions.map fun wear =>
          "★ " ++ sample_model ++ " | " ++ finish ++ " " ++ wear
      match track_min_priced priceOf vanillaBest gold_names with
      | none => none
      | some (cheapest_gold_name, cheapest_gold_price) =>
          some (mkSmartResult collection_name cheapest_covert_name
            cheapest_gold_name cheapest_covert_price cheapest_gold_price)

/-- The sort comparison of `main`'s report
(smart_scanner.py line 342): `net_profit` descending. -/
def smart_desc (a b : SmartResult) : Prop := b.net_profit ≤ a.net_profit

instance : DecidableRel smart_desc :=
  fun a b => inferInstanceAs (Decidable (b.net_profit ≤ a.net_profit))

instance : IsTotal SmartResult smart_desc :=
  ⟨fun a b => le_total b.net_profit a.net_profit⟩

instance : IsTrans SmartResult smart_desc :=
  ⟨fun _ _ _ h1 h2 => le_trans h2 h1⟩

/-- One entry of `FOCUSED_COLLECTIONS` (smart_scanner.py lines 232-302). -/
structure SmartCollection where
  collection : String
  covert_skins : List String
  gold_models : List String
  finish_set : List String

/-- The result-collection and report of `main` (smart_scanner.py lines
313-342): analyze each collection, keep the non-`None` results, sort by
`net_profit` descending.  (When `results` is empty the source prints no
report at all, which coincides with the empty sorted list.) -/
def smart_main (priceOf : String → Option ℚ) (collections : List SmartCollection) :
    List SmartResult :=
  let results := collections.filterMap fun c =>
    analyze_collection priceOf c.collection c.covert_skins c.gold_models c.finish_set
  List.insertionSort smart_desc results

end SmartScanner

/-! ## tradeup_scanner.py -/

namespace TradeupScanner

/-- `STEAM_FEE_PERCENT = 0.13` (tradeup_scanner.py line 22). -/
def STEAM_FEE_PERCENT : ℚ := 13 / 100

/-- `get_market_price` (tradeup_scanner.py lines 28-75) against the global
`price_cache` dict (line 25).  A cache hit under `use_cache` returns at once
(lines 33-34).  Otherwise one remote request runs; its outcome is classified
as in `SmartScanner.FetchOutcome` — here a 429 status makes
`raise_for_status` raise, so `throttled` and `transportError` both land in
the `RequestException` handler (line 70) and return `None`; `badPayload`
(success=false, missing `lowest_price`, or a parse `ValueError`/`KeyError`,
lines 49-60 and 73-75) returns `None`; only a parsed price is stored into
the cache (line 62) and returned. -/
def get_market_price (price_cache : List (String × ℚ)) (item_name : String)
    (use_cache : Bool) (outcome : SmartScanner.FetchOutcome) :
    Option ℚ × List (String × ℚ) :=
  if use_cache ∧ (price_cache.lookup item_name).isSome then
    (price_cache.lookup item_name, price_cache)
  else
    match outcome with
    | .priced price => (some price, (item_name, price) :: price_cache)
    | _ => (none, price_cache)

/-- One entry of the `COLLECTIONS` table (tradeup_scanner.py lines 132-512). -/
structure CollectionInfo where
  covert_skins : List String
  gold_models : List String
  finish_set : List String
  is_gloves : Bool

/-- The dictionary returned by `evaluate_collection`
(tradeup_scanner.py lines 594-606). -/
structure EvalResult where
  collection : String
  covert_skin : String
  covert_price : ℚ
  cheapest_gold : String
  gold_price : ℚ
  price_ratio : ℚ
  cost_5x_covert : ℚ
  gold_after_fee : ℚ
  net_profit : ℚ
  profit_margin_pct : ℚ
  is_profitable : Bool

/-- The profit block of `evaluate_collection`
(tradeup_scanner.py lines 541 and 577-606): cost of five coverts, value of
the gold after the 13% fee, net profit, a guarded profit margin (line 581)
and a guarded price ratio (line 584). -/
def mkEvalResult (collection_name selected_skin cheapest_gold : String)
    (covert_price cheapest_gold_price : ℚ) : EvalResult :=
  let cost_of_5_coverts := covert_price * 5
  let gold_value_after_fee := cheapest_gold_price * (1 - STEAM_FEE_PERCENT)
  let raw_profit := gold_value_after_fee - cost_of_5_coverts
  let profit_margin :=
    if cost_of_5_coverts > 0 then raw_profit / cost_of_5_coverts * 100 else 0
  let price_ratio :=
    if covert_price > 0 then cheapest_gold_price / covert_price else 0
  { collection := collection_name, covert_skin := selected_skin
    covert_price := covert_price, cheapest_gold := cheapest_gold
    gold_price := cheapest_gold_price, price_ratio := price_ratio
    cost_5x_covert := cost_of_5_coverts, gold_after_fee := gold_value_after_fee
    net_profit := raw_profit, profit_margin_pct := profit_margin
    is_profitable := decide (raw_profit > 0) }

/-- The covert loop of `evaluate_collection` (tradeup_scanner.py lines
524-531): fetch every covert skin in order, and if ANY fetch returns `None`
the whole collection is skipped (`return None` at line 530); otherwise the
list of `(skin, price)` pairs in input order. -/
def fetch_covert_prices (priceOf : String → Option ℚ) :
    List String → Option (List (String × ℚ))
  | [] => some []
  | skin :: rest =>
    match priceOf skin with
    | none => none
    | some price => (fetch_covert_prices priceOf rest).map fun l => (skin, price) :: l

/-- The comparison under `covert_prices.sort(key=lambda x: x[1])`
(tradeup_scanner.py line 538): ascending price.  Python's `list.sort` is
stable; so is `List.insertionSort`, so on ties the earliest pair wins in
both. -/
def price_le (a b : String × ℚ) : Prop := a.2 ≤ b.2

instance : DecidableRel price_le :=
  fun a b => inferInstanceAs (Decidable (a.2 ≤ b.2))

instance : IsTotal (String × ℚ) price_le := ⟨fun a b => le_total a.2 b.2⟩

instance : IsTrans (String × ℚ) price_le := ⟨fun _ _ _ h1 h2 => le_trans h1 h2⟩

/-- The gold-item name generation of `evaluate_collection`
(tradeup_scanner.py lines 546-557; the `is_gloves` branch builds exactly the
same `"★ {model} | {finish}"` strings as the other branch, so one product
covers both). -/
def generate_gold_items (info : CollectionInfo) : List String :=
  info.gold_models.flatMap fun model =>
    info.finish_set.map fun finish => "★ " ++ model ++ " | " ++ finish

/-- `evaluate_collection` (tradeup_scanner.py lines 515-606), with the
cache-backed `get_market_price` abstracted as `priceOf`.  All covert fetches
must succeed (lines 524-531); the fetched pairs are sorted by price and the
first (the cheapest — Python's stable sort keeps the earliest on ties) is
selected (lines 538-540); the gold loop keeps the cheapest truthy price
(lines 560-569, the shared `track_min_priced` pattern) and the collection is
skipped when it finds none (lines 571-573). -/
def evaluate_collection (priceOf : String → Option ℚ) (collection_name : String)
    (info : CollectionInfo) : Option EvalResult :=
  match fetch_covert_prices priceOf info.covert_skins with
  | none => none
  | some covert_prices =>
    if covert_prices.length < 1 then none
    else
      match List.insertionSort price_le covert_prices with
      | [] => none
      | (selected_skin, covert_price) :: _ =>
        match SmartScanner.track_min_priced priceOf none (generate_gold_items info) with
        | none => none
        | some (cheapest_gold, cheapest_gold_price) =>
            some (mkEvalResult collection_name selected_skin cheapest_gold
              covert_price cheapest_gold_price)

/-- The sort comparison of `run_full_scan`
(tradeup_scanner.py line 641): `net_profit` descending. -/
def profit_desc (a b : EvalResult) : Prop := b.net_profit ≤ a.net_profit

instance : DecidableRel profit_desc :=
  fun a b => inferInstanceAs (Decidable (b.net_profit ≤ a.net_profit))

instance : IsTotal EvalResult profit_desc :=
  ⟨fun a b => le_total b.net_profit a.net_profit⟩

instance : IsTrans EvalResult profit_desc :=
  ⟨fun _ _ _ h1 h2 => le_trans h2 h1⟩

/-- `run_full_scan` (tradeup_scanner.py lines 609-649): evaluate every
collection, keep the non-`None` results (lines 622-626), return the empty
report when there are none (lines 631-633), otherwise keep only the rows
with `net_profit >= min_profit` (line 638), sort them by `net_profit`
descending (line 641) and keep the first `top_n` (line 644; the column
projection `[[...]]` of line 644-647 only drops columns and is left to the
report formatting). -/
def run_full_scan (priceOf : String → Option ℚ)
    (collections : List (String × CollectionInfo)) (min_profit : ℚ) (top_n : ℕ) :
    List EvalResult :=
  let results := collections.filterMap fun c => evaluate_collection priceOf c.1 c.2
  match results with
  | [] => []
  | _ :: _ =>
    let df_profitable := results.filter fun r => decide (min_profit ≤ r.net_profit)
    (List.insertionSort profit_desc df_profitable).take top_n

end TradeupScanner

/-! ## Concrete inputs used by counterexamples, witnesses and scenarios -/

/-- A fetch oracle for a two-covert collection where the second covert's
price lookup fails: `"Skin A"` is priced, `"Skin B"` is absent, the one gold
item is priced. -/
def c6_prices : String → Option ℚ := fun name =>
  if name = "Skin A" then some 10
  else if name = "★ Knife M | Finish F" then some 50
  else none

/-- A collection whose covert list is `["Skin A", "Skin B"]` under
`c6_prices`: one covert yields a price, the other does not. -/
def c6_info : TradeupScanner.CollectionInfo :=
  { covert_skins := ["Skin A", "Skin B"], gold_models := ["Knife M"]
    finish_set := ["Finish F"], is_gloves := false }

/-- A fetch oracle under which a collection evaluates successfully but
unprofitably: covert at $10 (cost of five: $50), gold at $50
($43.50 after the 13% fee), net profit −$6.50. -/
def c8_prices : String → Option ℚ := fun name =>
  if name = "Skin A" then some 10
  else if name = "★ Knife M | Finish F" then some 50
  else none

/-- The one-covert, one-gold collection evaluated under `c8_prices`. -/
def c8_info : TradeupScanner.CollectionInfo :=
  { covert_skins := ["Skin A"], gold_models := ["Knife M"]
    finish_set := ["Finish F"], is_gloves := false }

/-- The evaluation `c8_info` produces under `c8_prices`. -/
def c8_result : TradeupScanner.EvalResult :=
  TradeupScanner.mkEvalResult "Case Y" "Skin A" "★ Knife M | Finish F" 10 50

/-- The spec's §8 scenario oracle: low-rarity candidates `A` at $10.00 and
`B` at $8.00, high-rarity candidate `X = "★ M | F"` at $50.00. -/
def scenario_prices : String → Option ℚ := fun name =>
  if name = "A" then some 10
  else if name = "B" then some 8
  else if name = "★ M | F" then some 50
  else none

/-- The spec's §8 scenario collection: coverts `["A", "B"]`, one gold. -/
def scenario_info : TradeupScanner.CollectionInfo :=
  { covert_skins := ["A", "B"], gold_models := ["M"]
    finish_set := ["F"], is_gloves := false }

/-! ## Supporting lemmas -/

/-- Unrolling one step of the running-minimum fold. -/
theorem track_min_priced_cons (priceOf : String → Option ℚ)
    (best : Option (String × ℚ)) (name : String) (rest : List String) :
    SmartScanner.track_min_priced priceOf best (name :: rest)
      = SmartScanner.track_min_priced priceOf
          (match priceOf name with
           | some price =>
               match best with
               | none => if price ≠ 0 then some (name, price) else best
               | some (_, best_price) =>
                   if price ≠ 0 ∧ price < best_price then some (name, price) else best
           | none => best)
          rest := by
  simp only [SmartScanner.track_min_priced, List.foldl_cons]

/-- The running-minimum fold never discards a candidate it already holds:
from a `some` accumulator the result is still `some`. -/
theorem track_min_priced_isSome_of_best (priceOf : String → Option ℚ)
    (names : List String) :
    ∀ best : Option (String × ℚ), best.isSome →
      (SmartScanner.track_min_priced priceOf best names).isSome := by
  induction names with
  | nil => intro best hb; simpa [SmartScanner.track_min_priced] using hb
  | cons name rest ih =>
      intro best hb
      rw [track_min_priced_cons]
      apply ih
      match hp : priceOf name with
      | none => simpa [hp] using hb
      | some price =>
          match best with
          | none => simp at hb
          | some (n, bp) => simp [hp]; split <;> simp

/-- If some listed name has a truthy (nonzero) price, the running-minimum
fold ends on a `some`, whatever it starts from. -/
theorem track_min_priced_isSome_of_priced (priceOf : String → Option ℚ)
    (names : List String) :
    ∀ best : Option (String × ℚ),
      (∃ name ∈ names, ∃ p, priceOf name = some p ∧ p ≠ 0) →
      (SmartScanner.track_min_priced priceOf best names).isSome := by
  induction names with
  | nil => rintro best ⟨name, hmem, _⟩; simp at hmem
  | cons head rest ih =>
      rintro best ⟨name, hmem, p, hp, hpz⟩
      rw [track_min_priced_cons]
      rcases List.mem_cons.mp hmem with rfl | hmem
      · -- the head itself is truthy: the new accumulator is `some`
        apply track_min_priced_isSome_of_best
        rw [hp]
        rcases best with _ | ⟨n, bp⟩
        · simp [hpz]
        · simp only []
          split <;> simp
      · exact ih _ ⟨name, hmem, p, hp, hpz⟩

/-- Invariant of the running-minimum fold: a price it holds is nonzero,
provided the initial accumulator's price (if any) is nonzero — the update
condition `price and price < cheapest` admits no zero price. -/
theorem track_min_priced_ne_zero (priceOf : String → Option ℚ)
    (names : List String) :
    ∀ best : Option (String × ℚ),
      (∀ n p, best = some (n, p) → p ≠ 0) →
      ∀ n p, SmartScanner.track_min_priced priceOf best names = some (n, p) → p ≠ 0 := by
  induction names with
  | nil =>
      intro best hb n p h
      exact hb n p (by simpa [SmartScanner.track_min_priced] using h)
  | cons head rest ih =>
      intro best hb n p h
      rw [track_min_priced_cons] at h
      refine ih _ ?_ n p h
      intro n' p' h'
      match hp : priceOf head with
      | none => exact hb n' p' (by simpa [hp] using h')
      | some price =>
          rw [hp] at h'
          match best with
          | none =>
              by_cases hz : price ≠ 0
              · simp [hz] at h'; exact h'.2 ▸ hz
              · simp [hz] at h'
          | some (bn, bp) =>
              by_cases hc : price ≠ 0 ∧ price < bp
              · simp [hc] at h'; exact h'.2 ▸ hc.1
              · simp [hc] at h'
                exact hb n' p' (by rw [h'.1, h'.2])

/-- From a `some` accumulator, the running-minimum fold's final price never
exceeds the accumulator's price (updates only ever lower it). -/
theorem track_min_priced_le_best (priceOf : String → Option ℚ)
    (names : List String) :
    ∀ (bn : String) (bp : ℚ) (n : String) (p : ℚ),
      SmartScanner.track_min_priced priceOf (some (bn, bp)) names = some (n, p) →
      p ≤ bp := by
  induction names with
  | nil =>
      intro bn bp n p h
      simp only [SmartScanner.track_min_priced, List.foldl_nil, Option.some_inj,
        Prod.mk.injEq] at h
      exact h.2.ge
  | cons head rest ih =>
      intro bn bp n p h
      rw [track_min_priced_cons] at h
      cases hp : priceOf head with
      | none => rw [hp] at h; exact ih bn bp n p h
      | some price =>
          rw [hp] at h
          dsimp only at h
          by_cases hc : price ≠ 0 ∧ price < bp
          · rw [if_pos hc] at h
            exact le_trans (ih head price n p h) (le_of_lt hc.2)
          · rw [if_neg hc] at h
            exact ih bn bp n p h

/-- The running-minimum fold's final price is a lower bound on every truthy
(nonzero) price a listed name yields. -/
theorem track_min_priced_le_all (priceOf : String → Option ℚ)
    (names : List String) :
    ∀ (best : Option (String × ℚ)) (n : String) (p : ℚ),
      SmartScanner.track_min_priced priceOf best names = some (n, p) →
      ∀ m ∈ names, ∀ q, priceOf m = some q → q ≠ 0 → p ≤ q := by
  induction names with
  | nil => intro best n p _ m hm; simp at hm
  | cons head rest ih =>
      intro best n p h m hm q hq hqz
      rw [track_min_priced_cons] at h
      rcases List.mem_cons.mp hm with rfl | hm
      · rw [hq] at h
        dsimp only at h
        cases best with
        | none =>
            dsimp only at h
            rw [if_pos hqz] at h
            exact track_min_priced_le_best priceOf rest m q n p h
        | some b =>
            obtain ⟨bn, bp⟩ := b
            dsimp only at h
            by_cases hc : q ≠ 0 ∧ q < bp
            · rw [if_pos hc] at h
              exact track_min_priced_le_best priceOf rest m q n p h
            · rw [if_neg hc] at h
              have hble : bp ≤ q := by
                rcases not_and_or.mp hc with h0 | hlt
                · exact absurd hqz (by simpa using h0)
                · exact le_of_not_lt hlt
              exact le_trans (track_min_priced_le_best priceOf rest bn bp n p h) hble
      · exact ih _ n p h m hm q hq hqz

/-- The running-minimum fold's final pair is the initial accumulator or a
fetched pair of a listed name. -/
theorem track_min_priced_mem (priceOf : String → Option ℚ)
    (names : List String) :
    ∀ (best : Option (String × ℚ)) (n : String) (p : ℚ),
      SmartScanner.track_min_priced priceOf best names = some (n, p) →
      best = some (n, p) ∨ (n ∈ names ∧ priceOf n = some p) := by
  induction names with
  | nil =>
      intro best n p h
      left
      simpa [SmartScanner.track_min_priced] using h
  | cons head rest ih =>
      intro best n p h
      rw [track_min_priced_cons] at h
      cases hp : priceOf head with
      | none =>
          rw [hp] at h
          rcases ih _ n p h with h' | ⟨hmem, hpn⟩
          · exact Or.inl h'
          · exact Or.inr ⟨List.mem_cons_of_mem _ hmem, hpn⟩
      | some price =>
          rw [hp] at h
          dsimp only at h
          cases best with
          | none =>
              dsimp only at h
              by_cases hz : price ≠ 0
              · rw [if_pos hz] at h
                rcases ih _ n p h with h' | ⟨hmem, hpn⟩
                · simp only [Option.some_inj, Prod.mk.injEq] at h'
                  exact Or.inr ⟨h'.1 ▸ List.mem_cons_self _ _, by rw [← h'.1, ← h'.2]; exact hp⟩
                · exact Or.inr ⟨List.mem_cons_of_mem _ hmem, hpn⟩
              · rw [if_neg hz] at h
                rcases ih _ n p h with h' | ⟨hmem, hpn⟩
                · exact Or.inl h'
                · exact Or.inr ⟨List.mem_cons_of_mem _ hmem, hpn⟩
          | some b =>
              obtain ⟨bn, bp⟩ := b
              dsimp only at h
              by_cases hc : price ≠ 0 ∧ price < bp
              · rw [if_pos hc] at h
                rcases ih _ n p h with h' | ⟨hmem, hpn⟩
                · simp only [Option.some_inj, Prod.mk.injEq] at h'
                  exact Or.inr ⟨h'.1 ▸ List.mem_cons_self _ _, by rw [← h'.1, ← h'.2]; exact hp⟩
                · exact Or.inr ⟨List.mem_cons_of_mem _ hmem, hpn⟩
              · rw [if_neg hc] at h
                rcases ih _ n p h with h' | ⟨hmem, hpn⟩
                · exact Or.inl h'
                · exact Or.inr ⟨List.mem_cons_of_mem _ hmem, hpn⟩

/-- If any covert skin's fetch is absent, the covert loop aborts. -/
theorem fetch_covert_prices_eq_none (priceOf : String → Option ℚ)
    (skins : List String) (s : String) (hmem : s ∈ skins) (hs : priceOf s = none) :
    TradeupScanner.fetch_covert_prices priceOf skins = none := by
  induction skins with
  | nil => simp at hmem
  | cons head rest ih =>
      rcases List.mem_cons.mp hmem with rfl | hmem
      · simp [TradeupScanner.fetch_covert_prices, hs]
      · unfold TradeupScanner.fetch_covert_prices
        match hh : priceOf head with
        | none => rfl
        | some price => simp [ih hmem]

/-- When the covert loop completes, every skin appears in its output with
the price its fetch yielded. -/
theorem fetch_covert_prices_mem (priceOf : String → Option ℚ)
    (skins : List String) :
    ∀ covert_prices,
      TradeupScanner.fetch_covert_prices priceOf skins = some covert_prices →
      ∀ s ∈ skins, ∃ p, priceOf s = some p ∧ (s, p) ∈ covert_prices := by
  induction skins with
  | nil => intro cps _ s hmem; simp at hmem
  | cons head rest ih =>
      intro cps hcps s hmem
      unfold TradeupScanner.fetch_covert_prices at hcps
      match hh : priceOf head with
      | none => rw [hh] at hcps; simp at hcps
      | some price =>
          rw [hh] at hcps
          match hr : TradeupScanner.fetch_covert_prices priceOf rest with
          | none => rw [hr] at hcps; simp at hcps
          | some l =>
              rw [hr] at hcps
              simp only [Option.map, Option.some_inj] at hcps
              subst hcps
              rcases List.mem_cons.mp hmem with rfl | hmem
              · exact ⟨price, hh, List.mem_cons_self _ _⟩
              · obtain ⟨p, hp, hmem'⟩ := ih l hr s hmem
                exact ⟨p, hp, List.mem_cons_of_mem _ hmem'⟩

/-- Conversely, every pair the covert loop outputs is the fetch of a listed
skin. -/
theorem fetch_covert_prices_mem_rev (priceOf : String → Option ℚ)
    (skins : List String) :
    ∀ covert_prices,
      TradeupScanner.fetch_covert_prices priceOf skins = some covert_prices →
      ∀ s p, (s, p) ∈ covert_prices → s ∈ skins ∧ priceOf s = some p := by
  induction skins with
  | nil =>
      intro cps hcps s p hmem
      simp only [TradeupScanner.fetch_covert_prices, Option.some_inj] at hcps
      subst hcps
      simp at hmem
  | cons head rest ih =>
      intro cps hcps s p hmem
      unfold TradeupScanner.fetch_covert_prices at hcps
      match hh : priceOf head with
      | none => rw [hh] at hcps; simp at hcps
      | some price =>
          rw [hh] at hcps
          match hr : TradeupScanner.fetch_covert_prices priceOf rest with
          | none => rw [hr] at hcps; simp at hcps
          | some l =>
              rw [hr] at hcps
              simp only [Option.map, Option.some_inj] at hcps
              subst hcps
              rcases List.mem_cons.mp hmem with heq | hmem'
              · simp only [Prod.mk.injEq] at heq
                obtain ⟨rfl, rfl⟩ := heq
                exact ⟨List.mem_cons_self _ _, hh⟩
              · obtain ⟨hmem'', hp⟩ := ih l hr s p hmem'
                exact ⟨List.mem_cons_of_mem _ hmem'', hp⟩

/-- The head of the price-sorted covert list has minimal price among the
fetched pairs. -/
theorem insertionSort_head_min (covert_prices : List (String × ℚ))
    (selected_skin : String) (covert_price : ℚ) (rest : List (String × ℚ))
    (h : List.insertionSort TradeupScanner.price_le covert_prices
          = (selected_skin, covert_price) :: rest) :
    ∀ y ∈ covert_prices, covert_price ≤ y.2 := by
  intro y hy
  have hperm := List.perm_insertionSort TradeupScanner.price_le covert_prices
  have hy' : y ∈ List.insertionSort TradeupScanner.price_le covert_prices :=
    hperm.mem_iff.mpr hy
  rw [h] at hy'
  rcases List.mem_cons.mp hy' with rfl | hy'
  · exact le_refl _
  · have hs := List.sorted_insertionSort TradeupScanner.price_le covert_prices
    rw [h] at hs
    exact (List.pairwise_cons.mp hs).1 y hy'

/-- Decomposition of a successful `evaluate_collection`: the covert loop
completed, the sorted covert list is nonempty, the gold loop found a truthy
minimum, and the result is the profit block applied to those values. -/
theorem evaluate_collection_shape {priceOf : String → Option ℚ} {name : String}
    {info : TradeupScanner.CollectionInfo} {r : TradeupScanner.EvalResult}
    (h : TradeupScanner.evaluate_collection priceOf name info = some r) :
    ∃ covert_prices selected_skin covert_price rest cheapest_gold cheapest_gold_price,
      TradeupScanner.fetch_covert_prices priceOf info.covert_skins = some covert_prices ∧
      List.insertionSort TradeupScanner.price_le covert_prices
        = (selected_skin, covert_price) :: rest ∧
      SmartScanner.track_min_priced priceOf none (TradeupScanner.generate_gold_items info)
        = some (cheapest_gold, cheapest_gold_price) ∧
      r = TradeupScanner.mkEvalResult name selected_skin cheapest_gold covert_price
            cheapest_gold_price := by
  unfold TradeupScanner.evaluate_collection at h
  split at h
  · exact absurd h (by simp)
  next covert_prices hcps =>
    split at h
    · exact absurd h (by simp)
    · split at h
      · exact absurd h (by simp)
      next selected_skin covert_price rest hsort =>
        split at h
        · exact absurd h (by simp)
        next cheapest_gold cheapest_gold_price hgold =>
          exact ⟨covert_prices, selected_skin, covert_price, rest, cheapest_gold,
            cheapest_gold_price, hcps, hsort, hgold, (Option.some_inj.mp h).symm⟩

/-- Decomposition of a successful `analyze_collection`: the covert loop
found a truthy minimum, the model list is nonempty, the gold sampling found
a truthy minimum, and the result is the profit block applied to them. -/
theorem analyze_collection_shape {priceOf : String → Option ℚ}
    {name : String} {covert_skins gold_models finish_set : List String}
    {r : SmartScanner.SmartResult}
    (h : SmartScanner.analyze_collection priceOf name covert_skins gold_models
          finish_set = some r) :
    ∃ cheapest_covert_name cheapest_covert_price cheapest_gold_name cheapest_gold_price,
      SmartScanner.track_min_priced priceOf none covert_skins
        = some (cheapest_covert_name, cheapest_covert_price) ∧
      r = SmartScanner.mkSmartResult name cheapest_covert_name cheapest_gold_name
            cheapest_covert_price cheapest_gold_price := by
  unfold SmartScanner.analyze_collection at h
  split at h
  · exact absurd h (by simp)
  next cheapest_covert_name cheapest_covert_price hcov =>
    split at h
    · exact absurd h (by simp)
    next sample_model gm_rest =>
      dsimp only at h
      split at h
      · exact absurd h (by simp)
      next cheapest_gold_name cheapest_gold_price hgold =>
        exact ⟨cheapest_covert_name, cheapest_covert_price, cheapest_gold_name,
          cheapest_gold_price, hcov, (Option.some_inj.mp h).symm⟩

/-- Under unbroken throttling the retry loop exhausts its attempts: it
returns `none`, issues exactly `fuel` remote requests, and leaves the cache
untouched. -/
theorem retry_loop_all_throttled (oracle : ℕ → SmartScanner.FetchOutcome)
    (item_name : String) (hthr : ∀ i, oracle i = .throttled) :
    ∀ (fuel : ℕ) (st : SmartScanner.ScannerState),
      SmartScanner.retry_loop oracle item_name fuel st
        = (none, { st with request_count := st.request_count + fuel }) := by
  intro fuel
  induction fuel with
  | zero => intro st; simp [SmartScanner.retry_loop]
  | succ fuel ih =>
      intro st
      unfold SmartScanner.retry_loop
      rw [hthr]
      dsimp only
      rw [ih]
      have harith : st.request_count + 1 + fuel = st.request_count + (fuel + 1) := by
        omega
      simp [harith]

/-- The retry loop never issues more remote requests than it has attempts. -/
theorem retry_loop_request_bound (oracle : ℕ → SmartScanner.FetchOutcome)
    (item_name : String) :
    ∀ (fuel : ℕ) (st : SmartScanner.ScannerState),
      (SmartScanner.retry_loop oracle item_name fuel st).2.request_count
        ≤ st.request_count + fuel := by
  intro fuel
  induction fuel with
  | zero => intro st; simp [SmartScanner.retry_loop]
  | succ fuel ih =>
      intro st
      unfold SmartScanner.retry_loop
      match oracle (SmartScanner.MAX_RETRIES - (fuel + 1)) with
      | .throttled =>
          exact le_trans (ih _) (by simp only []; omega)
      | .transportError =>
          dsimp only
          by_cases hf : fuel = 0
          · simp only [if_pos hf]; simp; try omega
          · simp only [if_neg hf]
            exact le_trans (ih _) (by simp only []; omega)
      | .badPayload => simp; try omega
      | .priced price => simp; try omega

/-- The retry loop mutates the cache only by storing the successfully parsed
price it returns: a `none` outcome leaves the cache exactly as it was. -/
theorem retry_loop_cache (oracle : ℕ → SmartScanner.FetchOutcome)
    (item_name : String) :
    ∀ (fuel : ℕ) (st : SmartScanner.ScannerState),
      ((SmartScanner.retry_loop oracle item_name fuel st).1 = none ∧
        (SmartScanner.retry_loop oracle item_name fuel st).2.price_cache
          = st.price_cache)
      ∨ (∃ p, (SmartScanner.retry_loop oracle item_name fuel st).1 = some p ∧
          (SmartScanner.retry_loop oracle item_name fuel st).2.price_cache
            = (item_name, p) :: st.price_cache) := by
  intro fuel
  induction fuel with
  | zero => intro st; left; simp [SmartScanner.retry_loop]
  | succ fuel ih =>
      intro st
      unfold SmartScanner.retry_loop
      match oracle (SmartScanner.MAX_RETRIES - (fuel + 1)) with
      | .throttled => exact ih _
      | .transportError =>
          by_cases hf : fuel = 0
          · left; simp [hf]
          · simp only [if_neg hf]; exact ih _
      | .badPayload => left; simp
      | .priced price => right; exact ⟨price, by simp⟩

/-! ## Claims -/

/-- C3: for every item name, a call to `get_price_with_retry` whose remote
request is throttled (HTTP 429) on every attempt returns `none` after
issuing exactly `MAX_RETRIES` (3) remote requests, and no call ever issues
more than `MAX_RETRIES` remote requests.  (The model is a total function:
the source's `except` clauses catch every exception the attempt body can
raise, so no exception escapes — see `SmartScanner.FetchOutcome`.)  The
all-throttled conjunct assumes a cache miss, since a cache hit issues no
remote request at all. -/
theorem C3_throttled_retry_bound :
    ∀ (st : SmartScanner.ScannerState) (item_name : String)
      (oracle : ℕ → SmartScanner.FetchOutcome),
      (st.price_cache.lookup item_name = none →
        (∀ i, oracle i = .throttled) →
        (SmartScanner.get_price_with_retry st item_name oracle).1 = none
          ∧ (SmartScanner.get_price_with_retry st item_name oracle).2.request_count
              = st.request_count + SmartScanner.MAX_RETRIES)
      ∧ (SmartScanner.get_price_with_retry st item_name oracle).2.request_count
          ≤ st.request_count + SmartScanner.MAX_RETRIES := by
  intro st item_name oracle
  constructor
  · intro hmiss hthr
    unfold SmartScanner.get_price_with_retry
    rw [hmiss]
    rw [retry_loop_all_throttled oracle item_name hthr]
    exact ⟨rfl, rfl⟩
  · unfold SmartScanner.get_price_with_retry
    match st.price_cache.lookup item_name with
    | some price => simp
    | none => exact retry_loop_request_bound oracle item_name _ st

/-- C3 witness: on an empty cache with every attempt throttled, the fetch
returns `none` having issued exactly 3 remote requests. -/
theorem C3_throttled_retry_bound_witness :
    (SmartScanner.get_price_with_retry ⟨[], 0⟩ "AK-47 | Vulcan (Field-Tested)"
        (fun _ => .throttled)).1 = none
      ∧ (SmartScanner.get_price_with_retry ⟨[], 0⟩ "AK-47 | Vulcan (Field-Tested)"
        (fun _ => .throttled)).2.request_count = 0 + SmartScanner.MAX_RETRIES :=
  (C3_throttled_retry_bound ⟨[], 0⟩ "AK-47 | Vulcan (Field-Tested)"
    (fun _ => .throttled)).1 rfl (fun _ => rfl)

/-- C4: `get_wait_time` is monotone in the throttle count; for a count
`k ≥ 1` it equals `min (base_wait_time * 2 ^ (k - 1)) max_wait_time`; and it
never exceeds `max_wait_time = 600`. -/
theorem C4_backoff_monotone_capped :
    (∀ m n : ℕ, m ≤ n →
      RateLimitHandler.get_wait_time m ≤ RateLimitHandler.get_wait_time n)
    ∧ (∀ k : ℕ, 1 ≤ k →
      RateLimitHandler.get_wait_time k
        = min (RateLimitHandler.base_wait_time * 2 ^ (k - 1))
            RateLimitHandler.max_wait_time)
    ∧ (∀ k : ℕ, RateLimitHandler.get_wait_time k ≤ RateLimitHandler.max_wait_time) := by
  refine ⟨?_, ?_, ?_⟩
  · intro m n hmn
    unfold RateLimitHandler.get_wait_time
    by_cases hm : m = 0
    · rw [if_pos hm]
      by_cases hn : n = 0
      · rw [if_pos hn]
      · rw [if_neg hn]
        refine le_min ?_ (by decide)
        exact Nat.le_mul_of_pos_right _ (Nat.pos_pow_of_pos _ (by omega))
    · rw [if_neg hm, if_neg (by omega : ¬ n = 0)]
      refine min_le_min ?_ le_rfl
      exact Nat.mul_le_mul_left _ (Nat.pow_le_pow_right (by omega) (by omega))
  · intro k hk
    unfold RateLimitHandler.get_wait_time
    rw [if_neg (by omega)]
  · intro k
    unfold RateLimitHandler.get_wait_time
    by_cases hk : k = 0
    · rw [if_pos hk]; decide
    · rw [if_neg hk]; exact min_le_right _ _

/-- C4 witness: waits for counts 2 and 3 are ordered, the count-5 wait is
`min (60 * 2^4) 600` (= 600, the cap), and the count-7 wait respects the
cap. -/
theorem C4_backoff_witness :
    RateLimitHandler.get_wait_time 2 ≤ RateLimitHandler.get_wait_time 3
      ∧ RateLimitHandler.get_wait_time 5
          = min (RateLimitHandler.base_wait_time * 2 ^ 4) RateLimitHandler.max_wait_time
      ∧ RateLimitHandler.get_wait_time 7 ≤ RateLimitHandler.max_wait_time :=
  ⟨C4_backoff_monotone_capped.1 2 3 (by omega),
   C4_backoff_monotone_capped.2.1 5 (by omega),
   C4_backoff_monotone_capped.2.2 7⟩

/-- C5: immediately after a price is stored in the cache, fetching that item
returns that same price and leaves the whole state untouched — in
particular `request_count` is unchanged and the outcome of any would-be
remote request (`oracle` / `outcome`) is irrelevant, i.e. no remote call is
made.  Holds for both cache-backed fetchers. -/
theorem C5_cache_roundtrip :
    (∀ (st : SmartScanner.ScannerState) (item_name : String) (price : ℚ)
        (oracle : ℕ → SmartScanner.FetchOutcome),
      SmartScanner.get_price_with_retry
          { st with price_cache := (item_name, price) :: st.price_cache }
          item_name oracle
        = (some price,
            { st with price_cache := (item_name, price) :: st.price_cache }))
    ∧ (∀ (price_cache : List (String × ℚ)) (item_name : String) (price : ℚ)
        (outcome : SmartScanner.FetchOutcome),
      TradeupScanner.get_market_price ((item_name, price) :: price_cache)
          item_name true outcome
        = (some price, (item_name, price) :: price_cache)) := by
  constructor
  · intro st item_name price oracle
    unfold SmartScanner.get_price_with_retry
    simp [List.lookup]
  · intro price_cache item_name price outcome
    unfold TradeupScanner.get_market_price
    simp [List.lookup]

/-- C9: the price cache is mutated only by a successful parse: a fetch that
returns `none` (throttle exhaustion, transport error, success=false payload,
missing price, or parse error) leaves the cache mapping exactly as it was,
and whenever the cache changed, the fetch returned `some p` and the change
is exactly the insertion of `p` under the fetched name.  Holds for both
cache-backed fetchers. -/
theorem C9_cache_only_successful_parse :
    (∀ (st : SmartScanner.ScannerState) (item_name : String)
        (oracle : ℕ → SmartScanner.FetchOutcome),
      ((SmartScanner.get_price_with_retry st item_name oracle).1 = none →
        (SmartScanner.get_price_with_retry st item_name oracle).2.price_cache
          = st.price_cache)
      ∧ ((SmartScanner.get_price_with_retry st item_name oracle).2.price_cache
            ≠ st.price_cache →
          ∃ p, (SmartScanner.get_price_with_retry st item_name oracle).1 = some p
            ∧ (SmartScanner.get_price_with_retry st item_name oracle).2.price_cache
                = (item_name, p) :: st.price_cache))
    ∧ (∀ (price_cache : List (String × ℚ)) (item_name : String) (use_cache : Bool)
        (outcome : SmartScanner.FetchOutcome),
      ((TradeupScanner.get_market_price price_cache item_name use_cache outcome).1
            = none →
        (TradeupScanner.get_market_price price_cache item_name use_cache outcome).2
          = price_cache)
      ∧ ((TradeupScanner.get_market_price price_cache item_name use_cache outcome).2
            ≠ price_cache →
          ∃ p, (TradeupScanner.get_market_price price_cache item_name use_cache
                  outcome).1 = some p
            ∧ (TradeupScanner.get_market_price price_cache item_name use_cache
                  outcome).2 = (item_name, p) :: price_cache)) := by
  constructor
  · intro st item_name oracle
    unfold SmartScanner.get_price_with_retry
    match st.price_cache.lookup item_name with
    | some price => exact ⟨fun h => by simp at h, fun h => absurd rfl h⟩
    | none =>
        rcases retry_loop_cache oracle item_name SmartScanner.MAX_RETRIES st with
          ⟨h1, h2⟩ | ⟨p, h1, h2⟩
        · exact ⟨fun _ => h2, fun h => absurd h2 h⟩
        · refine ⟨fun h => by rw [h1] at h; simp at h, fun _ => ⟨p, h1, h2⟩⟩
  · intro price_cache item_name use_cache outcome
    unfold TradeupScanner.get_market_price
    split
    · exact ⟨fun _ => rfl, fun h => absurd rfl h⟩
    · match outcome with
      | .priced price => exact ⟨fun h => by simp at h, fun _ => ⟨price, rfl, rfl⟩⟩
      | .throttled => exact ⟨fun _ => rfl, fun h => absurd rfl h⟩
      | .transportError => exact ⟨fun _ => rfl, fun h => absurd rfl h⟩
      | .badPayload => exact ⟨fun _ => rfl, fun h => absurd rfl h⟩

/-- C9 witness: an all-throttled fetch on an empty cache leaves the cache
empty, and a bad-payload `get_market_price` leaves its cache unchanged. -/
theorem C9_cache_only_successful_parse_witness :
    (SmartScanner.get_price_with_retry ⟨[], 0⟩ "AWP | Asiimov (Factory New)"
        (fun _ => .throttled)).2.price_cache = []
      ∧ (TradeupScanner.get_market_price [] "AWP | Asiimov (Factory New)" true
          .badPayload).2 = [] :=
  ⟨(C9_cache_only_successful_parse.1 ⟨[], 0⟩ "AWP | Asiimov (Factory New)"
      (fun _ => .throttled)).1 rfl,
   (C9_cache_only_successful_parse.2 [] "AWP | Asiimov (Factory New)" true
      .badPayload).1 rfl⟩

/-- C7 counterexample: from the initial state, a rate limit at `t = 0`
triggers a successful IP switch (and the halved wait is exactly 30
seconds), and a second rate limit at `t = 30` — only 30 seconds after the
previous successful switch, far less than `min_ip_switch_interval = 300` —
triggers a switch again.  `handle_rate_limit` increments `rate_limit_hits`
before consulting `should_switch_ip`, whose `rate_limit_hits > 0` branch
returns `True` unconditionally (rate_limit_handler.py lines 75-77, 160,
172), so the minimum interval never constrains throttle-driven rotation. -/
theorem C7_counterexample :
    (RateLimitHandler.handle_rate_limit RateLimitHandler.initState 0 true
        true).switched = true
      ∧ (RateLimitHandler.handle_rate_limit RateLimitHandler.initState 0 true
          true).wait_time = 30
      ∧ (RateLimitHandler.handle_rate_limit RateLimitHandler.initState 0 true
          true).state.last_ip_switch_time = some 0
      ∧ (RateLimitHandler.handle_rate_limit
          (RateLimitHandler.handle_rate_limit RateLimitHandler.initState 0 true
            true).state 30 true true).switched = true
      ∧ 30 - 0 < RateLimitHandler.min_ip_switch_interval := by
  decide

/-- C7 amended: the minimum-interval guard constrains only proactive
rotation — when no throttle is recorded (`rate_limit_hits = 0`),
`should_switch_ip` approves a switch only if a previous successful switch
exists and more than `min_ip_switch_interval` (300 s) has elapsed since it;
but as soon as a throttle is recorded (`rate_limit_hits > 0`, which is
always the case inside `handle_rate_limit`), it approves a switch
unconditionally, so rotation may recur within the interval. -/
theorem C7_rotation_interval_amended :
    (∀ (st : RateLimitHandler.RLState) (now : ℕ),
      st.rate_limit_hits = 0 →
      RateLimitHandler.should_switch_ip st now = true →
      0 < st.ip_switch_count
        ∧ ∃ t, st.last_ip_switch_time = some t
            ∧ RateLimitHandler.min_ip_switch_interval < now - t)
    ∧ (∀ (st : RateLimitHandler.RLState) (now : ℕ),
      0 < st.rate_limit_hits →
      RateLimitHandler.should_switch_ip st now = true) := by
  constructor
  · intro st now hz h
    unfold RateLimitHandler.should_switch_ip at h
    rw [if_neg (by omega)] at h
    match hl : st.last_ip_switch_time with
    | none => rw [hl] at h; simp at h
    | some t =>
        rw [hl] at h
        dsimp only at h
        by_cases hc : st.ip_switch_count > 0
        · rw [if_pos hc] at h
          exact ⟨hc, t, rfl, by simpa using of_decide_eq_true h⟩
        · rw [if_neg hc] at h; simp at h
  · intro st now hpos
    unfold RateLimitHandler.should_switch_ip
    rw [if_pos (by omega)]

/-- C7 amended witness: a proactive check with no recorded throttle, one
past switch at `t = 0` and `now = 301` approves a switch with the interval
indeed elapsed; and any state with a recorded throttle approves a switch. -/
theorem C7_rotation_interval_amended_witness :
    (0 < (⟨0, none, 1, some 0⟩ : RateLimitHandler.RLState).ip_switch_count
      ∧ ∃ t, (⟨0, none, 1, some 0⟩ : RateLimitHandler.RLState).last_ip_switch_time
              = some t
          ∧ RateLimitHandler.min_ip_switch_interval < 301 - t)
      ∧ RateLimitHandler.should_switch_ip ⟨1, some 0, 0, none⟩ 5 = true :=
  ⟨C7_rotation_interval_amended.1 ⟨0, none, 1, some 0⟩ 301 rfl (by decide),
   C7_rotation_interval_amended.2 ⟨1, some 0, 0, none⟩ 5 (by decide)⟩

/-- C1: for all prices `p_low > 0`, `p_high ≥ 0` and the fee 0.13, the
evaluations of `analyze_tradeup` and `evaluate_collection` satisfy
`net_profit = p_high * (1 - fee) - 5 * p_low` and `is_profitable` holds iff
`net_profit > 0`. -/
theorem C1_net_profit_and_profitability :
    (∀ (p_low p_high : ℚ) (name : String), 0 < p_low → 0 ≤ p_high →
      (ManualAnalyzer.analyze_tradeup p_low p_high name).net_profit
          = p_high * (1 - ManualAnalyzer.STEAM_FEE_PERCENT) - 5 * p_low
        ∧ ((ManualAnalyzer.analyze_tradeup p_low p_high name).is_profitable = true
            ↔ 0 < (ManualAnalyzer.analyze_tradeup p_low p_high name).net_profit))
    ∧ (∀ (priceOf : String → Option ℚ) (name : String)
        (info : TradeupScanner.CollectionInfo) (r : TradeupScanner.EvalResult),
        TradeupScanner.evaluate_collection priceOf name info = some r →
        r.net_profit
            = r.gold_price * (1 - TradeupScanner.STEAM_FEE_PERCENT)
                - 5 * r.covert_price
          ∧ (r.is_profitable = true ↔ 0 < r.net_profit)) := by
  constructor
  · intro p_low p_high name _ _
    constructor
    · simp only [ManualAnalyzer.analyze_tradeup]
      ring
    · simp [ManualAnalyzer.analyze_tradeup]
  · intro priceOf name info r h
    obtain ⟨cps, ss, cp, rest, cg, gp, _, _, _, hr⟩ := evaluate_collection_shape h
    subst hr
    constructor
    · simp only [TradeupScanner.mkEvalResult]
      ring
    · simp [TradeupScanner.mkEvalResult]

/-- C1 witness: at `p_low = 8`, `p_high = 50` (the spec's §8 scenario
numbers) the formula and the profitability test hold. -/
theorem C1_net_profit_and_profitability_witness :
    (ManualAnalyzer.analyze_tradeup 8 50 "Huntsman Weapon Case").net_profit
        = 50 * (1 - ManualAnalyzer.STEAM_FEE_PERCENT) - 5 * 8
      ∧ ((ManualAnalyzer.analyze_tradeup 8 50 "Huntsman Weapon Case").is_profitable
            = true
          ↔ 0 < (ManualAnalyzer.analyze_tradeup 8 50 "Huntsman Weapon Case").net_profit) :=
  C1_net_profit_and_profitability.1 8 50 "Huntsman Weapon Case" (by norm_num)
    (by norm_num)

/-- C2: `price_ratio` equals `p_high / p_low` when the cheapest low price is
positive and is defined as 0 when it is 0, with no division-by-zero failure
on any path: `analyze_tradeup` and `evaluate_collection` guard the division
explicitly, and in `analyze_collection` — whose source divides without a
guard — any returned result has a nonzero covert price (the running-minimum
loop never accepts a falsy price), so the division's divisor is never zero
there. -/
theorem C2_price_ratio_guard :
    (∀ (p_low p_high : ℚ) (name : String),
      (0 < p_low →
        (ManualAnalyzer.analyze_tradeup p_low p_high name).price_ratio
          = p_high / p_low)
      ∧ (p_low = 0 →
        (ManualAnalyzer.analyze_tradeup p_low p_high name).price_ratio = 0))
    ∧ (∀ (priceOf : String → Option ℚ) (name : String)
        (info : TradeupScanner.CollectionInfo) (r : TradeupScanner.EvalResult),
        TradeupScanner.evaluate_collection priceOf name info = some r →
        (0 < r.covert_price → r.price_ratio = r.gold_price / r.covert_price)
        ∧ (r.covert_price = 0 → r.price_ratio = 0))
    ∧ (∀ (priceOf : String → Option ℚ) (name : String)
        (covert_skins gold_models finish_set : List String)
        (r : SmartScanner.SmartResult),
        SmartScanner.analyze_collection priceOf name covert_skins gold_models
          finish_set = some r →
        r.covert_price ≠ 0 ∧ r.price_ratio = r.gold_price / r.covert_price) := by
  refine ⟨?_, ?_, ?_⟩
  · intro p_low p_high name
    constructor
    · intro hpos
      simp only [ManualAnalyzer.analyze_tradeup]
      rw [if_pos hpos]
    · intro hz
      subst hz
      simp [ManualAnalyzer.analyze_tradeup]
  · intro priceOf name info r h
    obtain ⟨cps, ss, cp, rest, cg, gp, _, _, _, hr⟩ := evaluate_collection_shape h
    subst hr
    constructor
    · intro hpos
      simp only [TradeupScanner.mkEvalResult] at hpos ⊢
      rw [if_pos hpos]
    · intro hz
      simp only [TradeupScanner.mkEvalResult] at hz ⊢
      rw [hz]
      simp
  · intro priceOf name covert_skins gold_models finish_set r h
    obtain ⟨ccn, ccp, cgn, cgp, hcov, hr⟩ := analyze_collection_shape h
    subst hr
    have hnz : ccp ≠ 0 :=
      track_min_priced_ne_zero priceOf covert_skins none (by simp) ccn ccp hcov
    exact ⟨by simpa [SmartScanner.mkSmartResult] using hnz,
      by simp [SmartScanner.mkSmartResult]⟩

/-- C2 witness: at prices `(2, 6)` the ratio is `6 / 2`; at `(0, 6)` the
guard yields 0. -/
theorem C2_price_ratio_guard_witness :
    (ManualAnalyzer.analyze_tradeup 2 6 "Chroma Case").price_ratio = 6 / 2
      ∧ (ManualAnalyzer.analyze_tradeup 0 6 "Chroma Case").price_ratio = 0 :=
  ⟨(C2_price_ratio_guard.1 2 6 "Chroma Case").1 (by norm_num),
   (C2_price_ratio_guard.1 0 6 "Chroma Case").2 rfl⟩

/-- C10: `profit_margin_pct` equals `net_profit / cost_5x * 100` when the
five-covert cost is positive, and is defined as 0 when that cost is 0, so
the margin never divides by zero — the guard is present in all three
scripts (manual_analyzer.py line 28, tradeup_scanner.py line 581,
smart_scanner.py line 207). -/
theorem C10_profit_margin_guard :
    (∀ (p_low p_high : ℚ) (name : String),
      (0 < (ManualAnalyzer.analyze_tradeup p_low p_high name).cost_5x_covert →
        (ManualAnalyzer.analyze_tradeup p_low p_high name).profit_margin_pct
          = (ManualAnalyzer.analyze_tradeup p_low p_high name).net_profit
              / (ManualAnalyzer.analyze_tradeup p_low p_high name).cost_5x_covert
              * 100)
      ∧ ((ManualAnalyzer.analyze_tradeup p_low p_high name).cost_5x_covert = 0 →
        (ManualAnalyzer.analyze_tradeup p_low p_high name).profit_margin_pct = 0))
    ∧ (∀ (priceOf : String → Option ℚ) (name : String)
        (info : TradeupScanner.CollectionInfo) (r : TradeupScanner.EvalResult),
        TradeupScanner.evaluate_collection priceOf name info = some r →
        (0 < r.cost_5x_covert →
          r.profit_margin_pct = r.net_profit / r.cost_5x_covert * 100)
        ∧ (r.cost_5x_covert = 0 → r.profit_margin_pct = 0))
    ∧ (∀ (priceOf : String → Option ℚ) (name : String)
        (covert_skins gold_models finish_set : List String)
        (r : SmartScanner.SmartResult),
        SmartScanner.analyze_collection priceOf name covert_skins gold_models
          finish_set = some r →
        (0 < r.cost_5x → r.profit_margin_pct = r.net_profit / r.cost_5x * 100)
        ∧ (r.cost_5x = 0 → r.profit_margin_pct = 0)) := by
  refine ⟨?_, ?_, ?_⟩
  · intro p_low p_high name
    constructor
    · intro hpos
      simp only [ManualAnalyzer.analyze_tradeup] at hpos ⊢
      rw [if_pos hpos]
    · intro hz
      simp only [ManualAnalyzer.analyze_tradeup] at hz ⊢
      rw [hz]
      simp
  · intro priceOf name info r h
    obtain ⟨cps, ss, cp, rest, cg, gp, _, _, _, hr⟩ := evaluate_collection_shape h
    subst hr
    constructor
    · intro hpos
      simp only [TradeupScanner.mkEvalResult] at hpos ⊢
      rw [if_pos hpos]
    · intro hz
      simp only [TradeupScanner.mkEvalResult] at hz ⊢
      rw [hz]
      simp
  · intro priceOf name covert_skins gold_models finish_set r h
    obtain ⟨ccn, ccp, cgn, cgp, hcov, hr⟩ := analyze_collection_shape h
    subst hr
    constructor
    · intro hpos
      simp only [SmartScanner.mkSmartResult] at hpos ⊢
      rw [if_pos hpos]
    · intro hz
      simp only [SmartScanner.mkSmartResult] at hz ⊢
      rw [hz]
      simp

/-- C10 witness: at prices `(2, 6)` the margin is the cost-relative
percentage; at `(0, 6)` the cost of five coverts is 0 and the guard yields
a margin of 0. -/
theorem C10_profit_margin_guard_witness :
    ((ManualAnalyzer.analyze_tradeup 0 6 "Shadow Case").cost_5x_covert = 0
        → (ManualAnalyzer.analyze_tradeup 0 6 "Shadow Case").profit_margin_pct = 0)
      ∧ (ManualAnalyzer.analyze_tradeup 0 6 "Shadow Case").profit_margin_pct = 0
      ∧ (ManualAnalyzer.analyze_tradeup 2 6 "Shadow Case").profit_margin_pct
          = (ManualAnalyzer.analyze_tradeup 2 6 "Shadow Case").net_profit
              / (ManualAnalyzer.analyze_tradeup 2 6 "Shadow Case").cost_5x_covert
              * 100 :=
  ⟨(C10_profit_margin_guard.1 0 6 "Shadow Case").2,
   (C10_profit_margin_guard.1 0 6 "Shadow Case").2 (by norm_num
     [ManualAnalyzer.analyze_tradeup]),
   (C10_profit_margin_guard.1 2 6 "Shadow Case").1 (by norm_num
     [ManualAnalyzer.analyze_tradeup])⟩

/-- C6 counterexample: under `c6_prices` the covert candidate `"Skin A"`
yields a price, yet `evaluate_collection` returns `none` for the collection
`["Skin A", "Skin B"]`, because the other candidate's fetch is absent and
the source skips the whole collection as soon as ANY covert fetch returns
`None` (tradeup_scanner.py lines 527-530) — it does not proceed with the
minimum over the candidates that yielded prices. -/
theorem C6_counterexample :
    c6_prices "Skin A" = some 10
      ∧ "Skin A" ∈ c6_info.covert_skins
      ∧ TradeupScanner.evaluate_collection c6_prices "Case X" c6_info = none :=
  ⟨rfl, by simp [c6_info], rfl⟩

/-- C6 amended: in `evaluate_collection` the low-rarity phase demands a
price for EVERY candidate — one absent fetch makes the collection absent —
and when it succeeds the selected covert price is a fetched price that is
minimal among all fetched covert prices; the high-rarity phase (and the
phases of `analyze_collection`, via the shared `track_min_priced` loop)
proceeds whenever at least one candidate yields a truthy price, using the
minimum over those candidates; and a collection whose evaluation is absent
never contributes a row to the final sorted report. -/
theorem C6_absent_evaluations_amended :
    (∀ (priceOf : String → Option ℚ) (name : String)
        (info : TradeupScanner.CollectionInfo),
      (∃ s ∈ info.covert_skins, priceOf s = none) →
      TradeupScanner.evaluate_collection priceOf name info = none)
    ∧ (∀ (priceOf : String → Option ℚ) (name : String)
        (info : TradeupScanner.CollectionInfo) (r : TradeupScanner.EvalResult),
        TradeupScanner.evaluate_collection priceOf name info = some r →
        (∃ s ∈ info.covert_skins, priceOf s = some r.covert_price)
          ∧ ∀ s ∈ info.covert_skins, ∃ p, priceOf s = some p ∧ r.covert_price ≤ p)
    ∧ (∀ (priceOf : String → Option ℚ) (covert_skins : List String),
        (∃ s ∈ covert_skins, ∃ p, priceOf s = some p ∧ p ≠ 0) →
        (SmartScanner.track_min_priced priceOf none covert_skins).isSome = true)
    ∧ (∀ (priceOf : String → Option ℚ) (names : List String) (n : String) (p : ℚ),
        SmartScanner.track_min_priced priceOf none names = some (n, p) →
        (n ∈ names ∧ priceOf n = some p)
          ∧ ∀ m ∈ names, ∀ q, priceOf m = some q → q ≠ 0 → p ≤ q)
    ∧ (∀ (priceOf : String → Option ℚ)
        (collections : List (String × TradeupScanner.CollectionInfo))
        (min_profit : ℚ) (top_n : ℕ) (r : TradeupScanner.EvalResult),
        r ∈ TradeupScanner.run_full_scan priceOf collections min_profit top_n →
        ∃ c ∈ collections,
          TradeupScanner.evaluate_collection priceOf c.1 c.2 = some r) := by
  refine ⟨?_, ?_, ?_, ?_, ?_⟩
  · rintro priceOf name info ⟨s, hmem, hs⟩
    unfold TradeupScanner.evaluate_collection
    rw [fetch_covert_prices_eq_none priceOf info.covert_skins s hmem hs]
  · intro priceOf name info r h
    obtain ⟨cps, ss, cp, rest, cg, gp, hcps, hsort, _, hr⟩ :=
      evaluate_collection_shape h
    subst hr
    constructor
    · have hhead : (ss, cp) ∈ List.insertionSort TradeupScanner.price_le cps :=
        hsort ▸ List.mem_cons_self _ _
      have hmem : (ss, cp) ∈ cps :=
        (List.perm_insertionSort TradeupScanner.price_le cps).mem_iff.mp hhead
      obtain ⟨hss, hpss⟩ :=
        fetch_covert_prices_mem_rev priceOf info.covert_skins cps hcps ss cp hmem
      exact ⟨ss, hss, by simpa [TradeupScanner.mkEvalResult] using hpss⟩
    · intro s hmem
      obtain ⟨p, hp, hpair⟩ := fetch_covert_prices_mem priceOf info.covert_skins cps
        hcps s hmem
      refine ⟨p, hp, ?_⟩
      have := insertionSort_head_min cps ss cp rest hsort (s, p) hpair
      simpa [TradeupScanner.mkEvalResult] using this
  · exact fun priceOf covert_skins h =>
      track_min_priced_isSome_of_priced priceOf covert_skins none h
  · intro priceOf names n p h
    refine ⟨?_, track_min_priced_le_all priceOf names none n p h⟩
    rcases track_min_priced_mem priceOf names none n p h with h' | h'
    · exact absurd h' (by simp)
    · exact h'
  · intro priceOf collections min_profit top_n r hmem
    unfold TradeupScanner.run_full_scan at hmem
    dsimp only at hmem
    split at hmem
    · simp at hmem
    · have h1 := List.take_subset _ _ hmem
      have h2 := (List.perm_insertionSort TradeupScanner.profit_desc _).mem_iff.mp h1
      have h3 := List.mem_of_mem_filter h2
      obtain ⟨c, hc, heval⟩ := List.mem_filterMap.mp h3
      exact ⟨c, hc, heval⟩

/-- C6 amended witness: the `c6` collection, in which `"Skin B"`'s fetch is
absent, evaluates to `none`. -/
theorem C6_absent_evaluations_amended_witness :
    TradeupScanner.evaluate_collection c6_prices "Case X" c6_info = none :=
  C6_absent_evaluations_amended.1 c6_prices "Case X" c6_info
    ⟨"Skin B", by simp [c6_info], rfl⟩

/-- C8 counterexample: under `c8_prices` the collection evaluates
successfully (to `c8_result`, with net profit −6.50), yet the report of
`run_full_scan` with its default-style `min_profit = 5`, `top_n = 15` is
empty: `run_full_scan` keeps only rows with `net_profit ≥ min_profit`
(tradeup_scanner.py line 638) and truncates to `top_n`, so the report does
NOT contain every successfully evaluated result. -/
theorem C8_counterexample :
    TradeupScanner.evaluate_collection c8_prices "Case Y" c8_info = some c8_result
      ∧ TradeupScanner.run_full_scan c8_prices [("Case Y", c8_info)] 5 15 = [] := by
  constructor
  · rfl
  · have e1 : TradeupScanner.evaluate_collection c8_prices "Case Y" c8_info
        = some c8_result := rfl
    have e2 : ¬ (5 : ℚ) ≤ c8_result.net_profit := by
      norm_num [c8_result, TradeupScanner.mkEvalResult, TradeupScanner.STEAM_FEE_PERCENT]
    simp [TradeupScanner.run_full_scan, e1, e2]

/-- C8 amended: each reporter sorts its successful results by `net_profit`
descending, but they differ in what they keep: `run_full_scan`'s report is
the first `top_n` rows of a descending-sorted permutation of the successful
results whose `net_profit` is at least `min_profit`, while `batch_analyze`
and `main`'s report keep every (successful) result, as a descending-sorted
permutation. -/
theorem C8_report_sorted_amended :
    (∀ (priceOf : String → Option ℚ)
        (collections : List (String × TradeupScanner.CollectionInfo))
        (min_profit : ℚ) (top_n : ℕ),
      ∃ l : List TradeupScanner.EvalResult,
        l.Perm ((collections.filterMap fun c =>
                  TradeupScanner.evaluate_collection priceOf c.1 c.2).filter
                fun r => decide (min_profit ≤ r.net_profit))
        ∧ l.Pairwise (fun a b => b.net_profit ≤ a.net_profit)
        ∧ TradeupScanner.run_full_scan priceOf collections min_profit top_n
            = l.take top_n)
    ∧ (∀ opportunities : List ManualAnalyzer.Opportunity,
        (ManualAnalyzer.batch_analyze opportunities).Perm
            (opportunities.map fun opp =>
              ManualAnalyzer.analyze_tradeup opp.covert_price opp.gold_price
                opp.collection)
        ∧ (ManualAnalyzer.batch_analyze opportunities).Pairwise
            (fun a b => b.net_profit ≤ a.net_profit))
    ∧ (∀ (priceOf : String → Option ℚ)
        (collections : List SmartScanner.SmartCollection),
      (SmartScanner.smart_main priceOf collections).Perm
          (collections.filterMap fun c =>
            SmartScanner.analyze_collection priceOf c.collection c.covert_skins
              c.gold_models c.finish_set)
      ∧ (SmartScanner.smart_main priceOf collections).Pairwise
          (fun a b => b.net_profit ≤ a.net_profit)) := by
  refine ⟨?_, ?_, ?_⟩
  · intro priceOf collections min_profit top_n
    refine ⟨List.insertionSort TradeupScanner.profit_desc
      ((collections.filterMap fun c =>
          TradeupScanner.evaluate_collection priceOf c.1 c.2).filter
        fun r => decide (min_profit ≤ r.net_profit)), ?_, ?_, ?_⟩
    · exact List.perm_insertionSort _ _
    · exact List.sorted_insertionSort TradeupScanner.profit_desc _
    · unfold TradeupScanner.run_full_scan
      dsimp only
      split
      next heq => rw [heq]; simp
      next => rfl
  · intro opportunities
    exact ⟨List.perm_insertionSort _ _,
      List.sorted_insertionSort ManualAnalyzer.net_profit_desc _⟩
  · intro priceOf collections
    exact ⟨List.perm_insertionSort _ _,
      List.sorted_insertionSort SmartScanner.smart_desc _⟩

/-- The spec's §8 scenario, checked end to end: coverts `A` at $10 and `B`
at $8, gold `X` at $50, fee 0.13 — the evaluator picks `B`, pays $40 for
five, sells at $43.50 after the fee, for a net profit of $3.50, profitable. -/
theorem scenario_evaluation :
    (TradeupScanner.evaluate_collection scenario_prices "Scenario"
        scenario_info).map
        (fun r => (r.covert_skin, r.covert_price, r.cost_5x_covert,
          r.gold_after_fee, r.net_profit, r.is_profitable))
      = some ("B", 8, 40, 87 / 2, 7 / 2, true) := by
  have e1 : TradeupScanner.evaluate_collection scenario_prices "Scenario"
      scenario_info
      = some (TradeupScanner.mkEvalResult "Scenario" "B" "★ M | F" 8 50) := rfl
  rw [e1]
  norm_num [TradeupScanner.mkEvalResult, TradeupScanner.STEAM_FEE_PERCENT]

end CS2Scanner
